import Mathlib

/-!
Verification of the serverless-cspm policy evaluation engine.

The security rules of the repository are OPA/Rego documents
(src/real_time_monitoring/aws/terraform/modules/s3/config_files/s3/s3_bucket_acl.rego
and the policy document embedded in src/unnamed/part_006).  They are embedded
shallowly below.  The embedding keeps the Rego evaluation semantics:

- a reference to an absent field is undefined, and an undefined expression makes
  the enclosing rule body fail (we model possibly absent fields with Option);
- a call to a partially defined boolean rule is undefined (not false) when no
  body succeeds, so a literal comparison such as f(x) == false never holds;
- an undefined sub-term inside an array or object literal makes the whole
  composite term undefined;
- a complete rule or function whose definitions produce two distinct values for
  the same input raises an evaluation conflict error that aborts the query.

RegoResult captures the three possible outcomes of evaluating a complete rule
or function: undefined, a value, or a conflict error.
-/

namespace CSPM

/-- One entry of a tagset: a key/value pair, as in the AWS tag lists consumed by
the rules. -/
structure Tag where
  Key : String
  Value : String
deriving DecidableEq

/-- The public_access_block object of a bucket configuration.  The rego.v1
document of aws.s3_creation reads a status string from it, while the
aws.s3_kms_audit package reads the four individual booleans; every field can be
absent. -/
structure PublicAccessBlock where
  status : Option String := none
  block_public_acls : Option Bool := none
  block_public_policy : Option Bool := none
  ignore_public_acls : Option Bool := none
  restrict_public_buckets : Option Bool := none
deriving DecidableEq

/-- The ownership object of a bucket configuration. -/
structure Ownership where
  bucket_owner_enforced : Option Bool := none
deriving DecidableEq

/-- The versioning object of a bucket configuration. -/
structure Versioning where
  status : Option String := none
  mfa_delete : Option String := none
deriving DecidableEq

/-- The logging object of a bucket configuration. -/
structure LoggingConfig where
  status : Option String := none
deriving DecidableEq

/-- The notification object of a bucket configuration. -/
structure NotificationConfig where
  status : Option String := none
deriving DecidableEq

/-- The encryption object of a bucket configuration, as produced by the
collector and read by aws.s3_kms_audit. -/
structure EncryptionConfig where
  sse_algorithm : Option String := none
  kms_master_key_id : Option String := none
  kms_security_status : Option String := none
deriving DecidableEq

/-- input.bucket_config: every sub-object may be absent from a snapshot. -/
structure BucketConfig where
  public_access_block : Option PublicAccessBlock := none
  ownership : Option Ownership := none
  versioning : Option Versioning := none
  logging : Option LoggingConfig := none
  notification : Option NotificationConfig := none
  encryption : Option EncryptionConfig := none
  tagset : List Tag := []
deriving DecidableEq

/-- The input document sent to the S3 policy packages. -/
structure S3Input where
  resource_type : String
  bucket_config : BucketConfig
deriving DecidableEq

/-- A violation object as produced by the deny rules:
risk_level and reason strings. -/
structure Violation where
  risk_level : String
  reason : String
deriving DecidableEq

/-- Outcome of evaluating a complete Rego rule or function: undefined, a value,
or an evaluation conflict error (the rule produced two distinct values). -/
inductive RegoResult (α : Type) where
  | undef : RegoResult α
  | ok : α → RegoResult α
  | conflict : RegoResult α
deriving DecidableEq

/-- Lowercasing over the character sequence, as the Rego lower builtin (the
inputs involved are plain text). -/
def str_lower (s : String) : String := String.mk (s.data.map Char.toLower)

/-- Uppercasing over the character sequence, as the JavaScript toUpperCase
call of the dashboard (the inputs involved are plain text). -/
def str_upper (s : String) : String := String.mk (s.data.map Char.toUpper)

/-- Collapse the list of values produced by the bodies of a complete Rego
function: no value is undefined, agreeing values give that value, two distinct
values raise a conflict error. -/
def rego_function_result (outs : List String) : RegoResult String :=
  match outs with
  | [] => RegoResult.undef
  | x :: rest => if rest.all (fun y => y == x) then RegoResult.ok x else RegoResult.conflict

/-! ## Package aws.s3_creation, rego.v1 document
(s3_bucket_acl.rego, lines 29 to 51 of the concatenated file) -/

/-- is_publicly_accessible: config.public_access_block.status must be present
and differ from "blocked"; an absent reference leaves the body undefined. -/
def is_publicly_accessible (config : BucketConfig) : Bool :=
  match config.public_access_block.bind (fun p => p.status) with
  | some s => s != "blocked"
  | none => false

/-- High violation produced by the public-access deny rule. -/
def public_access_violation : Violation :=
  { risk_level := "High"
    reason := "S3 Bucket Public Access Enabled (PublicAccessBlock is off)" }

/-- The deny set of the rego.v1 aws.s3_creation document. -/
def s3_creation_deny (inp : S3Input) : List Violation :=
  if inp.resource_type == "s3" && is_publicly_accessible inp.bucket_config then
    [public_access_violation]
  else []

/-- The allow rule of the same document: some tag has Key Classification and
some (independently chosen) tag has Value Private. -/
def s3_creation_allow (inp : S3Input) : Bool :=
  inp.bucket_config.tagset.any (fun t => t.Key == "Classification") &&
  inp.bucket_config.tagset.any (fun t => t.Value == "Private")

/-! ## Package aws.s3_creation, confidentiality document
(s3_bucket_acl.rego, lines 52 to 105: complete deny rule with default false) -/

/-- is_bucket_owner_enforced: config.ownership.bucket_owner_enforced == true. -/
def is_bucket_owner_enforced (config : BucketConfig) : Bool :=
  config.ownership.bind (fun o => o.bucket_owner_enforced) == some true

/-- has_confidentiality_tag: some tag has Key Confidentiality. -/
def has_confidentiality_tag (tags : List Tag) : Bool :=
  tags.any (fun t => t.Key == "Confidentiality")

/-- The object literal mapping lowercased Confidentiality values to risk
levels; lookup of any other key is undefined. -/
def confidentiality_map (val : String) : Option String :=
  if val == "high" then some "Critical"
  else if val == "medium" then some "Medium"
  else if val == "low" then some "Low"
  else if val == "informational" then some "Informational"
  else if val == "public" then some "Public"
  else none

/-- Fallback value of the else branch of get_confidentiality_risk. -/
def unrecognized_confidentiality_risk : String :=
  "Critical (Unknown – Unrecognized Confidentiality score)"

/-- get_confidentiality_risk: for some index i with Key Confidentiality, map
the lowercased Value through the table; the else branch gives the fallback when
no binding succeeds; distinct successful values conflict. -/
def get_confidentiality_risk (tags : List Tag) : RegoResult String :=
  let outs := tags.filterMap (fun t =>
    if t.Key == "Confidentiality" then confidentiality_map (str_lower t.Value) else none)
  match rego_function_result outs with
  | RegoResult.undef => RegoResult.ok unrecognized_confidentiality_risk
  | r => r

/-- Violation of the deny rule that fires when no Confidentiality tag is
present: the qualified Critical default. -/
def no_confidentiality_tag_violation : Violation :=
  { risk_level := "Critical (Unknown – No Confidentiality tag found)"
    reason := "S3 bucket is public and missing adequate confidentiality context" }

/-- The complete deny rule of the confidentiality document.  ok none is the
default false value; the two bodies are mutually exclusive on the presence of
the Confidentiality tag; a conflict inside get_confidentiality_risk aborts the
evaluation. -/
def s3_creation_conf_deny (inp : S3Input) : RegoResult (Option Violation) :=
  if inp.resource_type == "s3" && !is_bucket_owner_enforced inp.bucket_config then
    if !has_confidentiality_tag inp.bucket_config.tagset then
      RegoResult.ok (some no_confidentiality_tag_violation)
    else
      match get_confidentiality_risk inp.bucket_config.tagset with
      | RegoResult.ok risk =>
          RegoResult.ok (some
            { risk_level := risk
              reason := "S3 bucket is public and confidentiality tag includes: " ++ risk })
      | _ => RegoResult.conflict
  else RegoResult.ok none

/-! ## Package aws.s3_kms_audit (src/unnamed/part_006, lines 44 to 161) -/

/-- is_kms_encrypted: the encryption argument (possibly an undefined reference)
has sse_algorithm equal to "aws:kms". -/
def is_kms_encrypted (encryption_config : Option EncryptionConfig) : Bool :=
  encryption_config.bind (fun e => e.sse_algorithm) == some "aws:kms"

/-- is_bucket_publicly_accessible: five partial clauses; each comparison needs
its field present (an absent reference leaves that clause undefined). -/
def is_bucket_publicly_accessible (config : BucketConfig) : Bool :=
  config.public_access_block.bind (fun p => p.block_public_acls) == some false ||
  config.public_access_block.bind (fun p => p.block_public_policy) == some false ||
  config.public_access_block.bind (fun p => p.ignore_public_acls) == some false ||
  config.public_access_block.bind (fun p => p.restrict_public_buckets) == some false ||
  (match config.ownership.bind (fun o => o.bucket_owner_enforced) with
   | some b => b != true
   | none => false)

/-- get_kms_security_issues: builds the potential_issues array and keeps the
issue strings whose condition holds.  Each condition is three-valued (some
true, some false, or none for undefined); in Rego an undefined sub-term inside
the array literal makes the whole array, hence the function result, undefined.
A call to a partial boolean helper is undefined when its body fails, so the
is_bucket_publicly_accessible condition is undefined (not false) for a
non-public bucket, and the comparison has_confidentiality_tag(...) == false is
undefined when the tag is absent and false when it is present. -/
def get_kms_security_issues (config : BucketConfig) : Option (List String) :=
  let conds : List (Option Bool × String) :=
    [ (if is_bucket_publicly_accessible config then some true else none,
        "public access enabled"),
      ((config.versioning.bind (fun v => v.status)).map (fun s => s != "Enabled"),
        "versioning disabled"),
      ((config.logging.bind (fun l => l.status)).map (fun s => s == "disabled"),
        "access logging disabled"),
      ((config.versioning.bind (fun v => v.mfa_delete)).map (fun s => s != "Enabled"),
        "MFA delete not enabled"),
      (if has_confidentiality_tag config.tagset then some false else none,
        "missing confidentiality tag"),
      ((config.notification.bind (fun n => n.status)).map (fun s => s == "disabled"),
        "event notifications disabled") ]
  if conds.all (fun c => c.1.isSome) then
    some (conds.filterMap (fun c => if c.1 == some true then some c.2 else none))
  else none

/-- The critical_issues list bound in the Critical clause of
determine_kms_risk_level. -/
def critical_issues : List String :=
  ["public access enabled", "missing confidentiality tag"]

/-- determine_kms_risk_level: three function clauses (Critical when some issue
is in critical_issues, Medium when the count is at least 3, Low when the count
is 1 or 2); distinct values produced together are a conflict error. -/
def determine_kms_risk_level (issues : List String) : RegoResult String :=
  let outs :=
    (if issues.any (fun issue => critical_issues.contains issue)
      then ["Critical"] else []) ++
    (if 3 ≤ issues.length then ["Medium"] else []) ++
    (if 0 < issues.length ∧ issues.length < 3 then ["Low"] else [])
  rego_function_result outs

/-- The deny set of aws.s3_kms_audit.  All six clauses require resource_type
s3 and KMS encryption.  Clause 1 calls determine_kms_risk_level and propagates
its conflict as an evaluation error; clause 2 compares
has_confidentiality_tag(...) == false, which never holds (the call is undefined
when the tag is absent); the remaining clauses are direct field checks. -/
def s3_kms_audit_deny (inp : S3Input) : RegoResult (List Violation) :=
  let cfg := inp.bucket_config
  if inp.resource_type == "s3" && is_kms_encrypted cfg.encryption then
    let c1 : RegoResult (List Violation) :=
      match get_kms_security_issues cfg with
      | none => RegoResult.ok []
      | some issues =>
        if 0 < issues.length then
          match determine_kms_risk_level issues with
          | RegoResult.ok risk =>
              RegoResult.ok
                [{ risk_level := risk
                   reason := "S3 bucket with KMS encryption has security issues: " ++
                     String.intercalate ", " issues }]
          | RegoResult.undef => RegoResult.ok []
          | RegoResult.conflict => RegoResult.conflict
        else RegoResult.ok []
    match c1 with
    | RegoResult.conflict => RegoResult.conflict
    | RegoResult.undef => RegoResult.conflict
    | RegoResult.ok v1 =>
      let conf_cmp : Option Bool :=
        if has_confidentiality_tag cfg.tagset then some false else none
      let v2 : List Violation :=
        if conf_cmp == some true then
          [{ risk_level := "Critical"
             reason := "S3 bucket uses KMS encryption but lacks proper confidentiality tagging" }]
        else []
      let v3 : List Violation :=
        if is_bucket_publicly_accessible cfg then
          [{ risk_level := "Critical"
             reason := "S3 bucket with KMS encryption allows public access" }]
        else []
      let v4 : List Violation :=
        if (cfg.versioning.bind (fun v => v.status)).map (fun s => s != "Enabled")
            == some true then
          [{ risk_level := "Medium"
             reason := "S3 bucket with KMS encryption should have versioning enabled for data protection" }]
        else []
      let v5 : List Violation :=
        if cfg.logging.bind (fun l => l.status) == some "disabled" then
          [{ risk_level := "Medium"
             reason := "S3 bucket with KMS encryption should have access logging enabled for audit trails" }]
        else []
      let v6 : List Violation :=
        if cfg.encryption.bind (fun e => e.kms_security_status) == some "insecure kms key" then
          [{ risk_level := "Critical"
             reason := "S3 bucket uses KMS key with security vulnerabilities" }]
        else []
      RegoResult.ok (v1 ++ v2 ++ v3 ++ v4 ++ v5 ++ v6)
  else RegoResult.ok []

/-! ## Dashboard severity classifier
(src/unnamed/part_002, FindingDetail.jsx, lines 80 to 88) -/

/-- getSeverityColor: switch on the uppercased severity string; a null or
undefined severity and every unrecognized string fall to the default branch. -/
def getSeverityColor (severity : Option String) : String :=
  match severity.map str_upper with
  | none => "default"
  | some u =>
    if u = "CRITICAL" then "error"
    else if u = "HIGH" then "warning"
    else if u = "MEDIUM" then "info"
    else if u = "LOW" then "success"
    else "default"

/-! ## Spec-modelled engine components

The evaluation orchestrator, finding lifecycle manager and cross-resource
correlator of this repository live in the lambda function zips
(BucketACLS.py, KMSAudit.py, lambda_handler.py); those files are not under
src/, only their terraform declarations, READMEs and demo guide are.  The
definitions below are therefore modelled from the spec. -/

/-- Modelled from the spec: the severity total order of section 3,
Critical > High > Medium > Low > Informational. -/
inductive Severity where
  | Critical : Severity
  | High : Severity
  | Medium : Severity
  | Low : Severity
  | Informational : Severity
deriving DecidableEq

/-- Modelled from the spec: numeric rank realizing the severity total order. -/
def Severity.rank : Severity → Nat
  | Severity.Critical => 4
  | Severity.High => 3
  | Severity.Medium => 2
  | Severity.Low => 1
  | Severity.Informational => 0

/-- Modelled from the spec: the larger of two severities under the section 3
order. -/
def maxSeverity (a b : Severity) : Severity :=
  if a.rank < b.rank then b else a

/-- Modelled from the spec: a Violation of the section 3 data model, with a
rule_name, a risk_level from the severity order and a human reason. -/
structure SpecViolation where
  rule_name : String
  risk_level : Severity
  reason : String
deriving DecidableEq

/-- Modelled from the spec: the outcome of evaluating one resource, an
aggregate severity (none means compliant) plus its violation list. -/
structure Evaluation where
  severity : Option Severity
  violations : List SpecViolation
deriving DecidableEq

/-- Modelled from the spec: a CorrelationLink record, a directed non-owning id
pair with a relation label (section 3). -/
structure CorrelationLink where
  from_finding_id : String
  to_finding_id : String
  relation : String
deriving DecidableEq

/-- Modelled from the spec: the Cross-Resource Correlator of section 4.3,
missing from src/ (it is implemented in the BucketACLS.py lambda).  Given the
primary evaluation and the dependent key evaluation: an unavailable or
compliant dependent leaves the primary unchanged; a dependent with a non-none
severity raises the primary severity to at least the dependent severity,
appends the dependent reason as a violation entry with rule_name
linked-resource-insecure, and emits a CorrelationLink pointing primary to
dependent. -/
def correlate (primary : Evaluation) (primary_id dep_id : String)
    (dep : Option Evaluation) : Evaluation × Option CorrelationLink :=
  match dep with
  | none => (primary, none)
  | some d =>
    match d.severity with
    | none => (primary, none)
    | some s =>
      ({ severity := some (match primary.severity with
           | none => s
           | some p => maxSeverity p s)
         violations := primary.violations ++
           [{ rule_name := "linked-resource-insecure"
              risk_level := s
              reason := String.intercalate "; " (d.violations.map (fun v => v.reason)) }] },
       some { from_finding_id := primary_id
              to_finding_id := dep_id
              relation := "depends_on_encryption_key" })

/-- Modelled from the spec: the finding status vocabulary of section 3. -/
inductive FindingStatus where
  | Open : FindingStatus
  | Resolved : FindingStatus
  | FalsePositive : FindingStatus
deriving DecidableEq

/-- Modelled from the spec: a finding as persisted by the lifecycle manager of
section 4.4 (the lambda code holding it is not under src/). -/
structure LifecycleFinding where
  finding_id : String
  resource_id : String
  status : FindingStatus
  violations : List SpecViolation
  first_detected_at : Nat
  last_evaluated_at : Nat
  resolved_at : Option Nat
deriving DecidableEq

/-- Modelled from the spec: independent finding creation for a resource audited
as its own top-level resource (section 4.3 step 5): a non-none severity yields
a finding of its own, a compliant evaluation yields none. -/
def finding_of_eval (rid fid : String) (now : Nat) (e : Evaluation) :
    Option LifecycleFinding :=
  match e.severity with
  | some _ =>
      some { finding_id := fid, resource_id := rid, status := FindingStatus.Open
             violations := e.violations
             first_detected_at := now, last_evaluated_at := now, resolved_at := none }
  | none => none

/-- Modelled from the spec: a change event tag of section 4.5. -/
inductive ChangeEvent where
  | Created : ChangeEvent
  | Modified : ChangeEvent
  | Deleted : ChangeEvent
deriving DecidableEq

/-- Modelled from the spec: the Open to Resolved transition of section 4.4:
resolved_at is set, the violations list is cleared. -/
def resolve_finding (f : LifecycleFinding) (now : Nat) : LifecycleFinding :=
  { f with status := FindingStatus.Resolved
           resolved_at := some now, violations := [] }

/-- Modelled from the spec: the Evaluation Orchestrator of section 4.5 (the
lambda handler is not under src/).  A Deleted event short-circuits directly to
the Resolved transition without running any rule; Created and Modified run the
rules (ruleEval) on the snapshot and apply the section 4.4 lifecycle map. -/
def orchestrate {α : Type} (ev : ChangeEvent) (ruleEval : α → List SpecViolation)
    (snap : α) (rid fid : String) (prior : Option LifecycleFinding) (now : Nat) :
    Option LifecycleFinding :=
  match ev with
  | ChangeEvent.Deleted => prior.map (fun f => resolve_finding f now)
  | _ =>
    let vs := ruleEval snap
    match prior with
    | some f =>
        if vs.isEmpty then some (resolve_finding f now)
        else some { f with violations := vs, last_evaluated_at := now }
    | none =>
        if vs.isEmpty then none
        else some { finding_id := fid, resource_id := rid
                    status := FindingStatus.Open, violations := vs
                    first_detected_at := now, last_evaluated_at := now
                    resolved_at := none }

/-! ## Statement helpers and concrete inputs -/

/-- The list of Confidentiality tag values of a tagset, in tagset order (used
to state properties of the confidentiality rules). -/
def confidentiality_values (tags : List Tag) : List String :=
  tags.filterMap (fun t => if t.Key == "Confidentiality" then some t.Value else none)

/-- Risk level the confidentiality table assigns to one tag value: the mapped
level for a recognized lowercased value, the qualified Critical fallback
otherwise. -/
def conf_risk_of (v : String) : String :=
  (confidentiality_map (str_lower v)).getD unrecognized_confidentiality_risk

/-- A publicly accessible s3 snapshot (public-access block off) that is
bucket-owner-enforced and carries Confidentiality high. -/
def c2_cx_input : S3Input :=
  { resource_type := "s3"
    bucket_config :=
      { public_access_block := some { status := some "not_blocked" }
        ownership := some { bucket_owner_enforced := some true }
        tagset := [{ Key := "Confidentiality", Value := "high" }] } }

/-- An s3 snapshot without ownership information carrying Confidentiality
High. -/
def c2_witness_input : S3Input :=
  { resource_type := "s3"
    bucket_config := { tagset := [{ Key := "Confidentiality", Value := "High" }] } }

/-- A KMS-encrypted s3 snapshot with block_public_acls false, a Confidentiality
tag, and versioning, logging and notifications all healthy: its only security
issue is public access enabled. -/
def c4_input : S3Input :=
  { resource_type := "s3"
    bucket_config :=
      { public_access_block := some { block_public_acls := some false }
        versioning := some { status := some "Enabled", mfa_delete := some "Enabled" }
        logging := some { status := some "enabled" }
        notification := some { status := some "enabled" }
        encryption := some { sse_algorithm := some "aws:kms" }
        tagset := [{ Key := "Confidentiality", Value := "high" }] } }

/-- An s3 snapshot whose configuration carries no field at all: no
public-access-block information, no ownership, no tags. -/
def c5_cx_input : S3Input :=
  { resource_type := "s3", bucket_config := {} }

/-- An s3 snapshot whose public-access block status is present and not
blocked. -/
def c7_witness_input : S3Input :=
  { resource_type := "s3"
    bucket_config := { public_access_block := some { status := some "not_blocked" } } }

/-- An s3 snapshot with no ownership information and no tag: the
confidentiality document assigns it the qualified Critical severity. -/
def c8_cx_input : S3Input :=
  { resource_type := "s3", bucket_config := {} }

/-- A publicly accessible s3 snapshot used to witness the tag-independence of
the public-access deny rule. -/
def c9_witness_input : S3Input :=
  { resource_type := "s3"
    bucket_config := { public_access_block := some { status := some "not_blocked" } } }

/-- An s3 snapshot, not bucket-owner-enforced, carrying one Confidentiality tag
with the unrecognized value weird and one with the recognized value low. -/
def c10_cx_input : S3Input :=
  { resource_type := "s3"
    bucket_config :=
      { tagset := [{ Key := "Confidentiality", Value := "weird" },
                   { Key := "Confidentiality", Value := "low" }] } }

/-- An s3 snapshot, not bucket-owner-enforced, whose only Confidentiality tag
has the unrecognized value weird. -/
def c10_witness_input : S3Input :=
  { resource_type := "s3"
    bucket_config := { tagset := [{ Key := "Confidentiality", Value := "weird" }] } }

/-- A primary s3 evaluation with one High violation of its own. -/
def c3_primary_eval : Evaluation :=
  { severity := some Severity.High
    violations := [{ rule_name := "public-exposure", risk_level := Severity.High
                     reason := "S3 Bucket Public Access Enabled" }] }

/-- A dependent KMS key evaluation with a Critical violation. -/
def c3_dep_eval : Evaluation :=
  { severity := some Severity.Critical
    violations := [{ rule_name := "kms-key-insecure", risk_level := Severity.Critical
                     reason := "KMS key has critical security issues" }] }

/-- An Open finding for a bucket, used to witness the deletion transition. -/
def c6_finding : LifecycleFinding :=
  { finding_id := "finding-1", resource_id := "test-public-bucket"
    status := FindingStatus.Open
    violations := [{ rule_name := "public-exposure", risk_level := Severity.High
                     reason := "S3 Bucket Public Access Enabled" }]
    first_detected_at := 10, last_evaluated_at := 20, resolved_at := none }

/-! ## Helper lemmas -/

/-- The issue values scanned by get_confidentiality_risk are exactly the
confidentiality tag values pushed through the mapping table. -/
theorem conf_outs_eq (tags : List Tag) :
    tags.filterMap (fun t =>
        if t.Key == "Confidentiality" then confidentiality_map (str_lower t.Value) else none) =
      (confidentiality_values tags).filterMap (fun v => confidentiality_map (str_lower v)) := by
  induction tags with
  | nil => rfl
  | cons t ts ih =>
    by_cases h : t.Key = "Confidentiality"
    · cases hm : confidentiality_map (str_lower t.Value) <;>
        simp [confidentiality_values, List.filterMap_cons, h, hm] <;>
          simpa [confidentiality_values] using ih
    · simp [confidentiality_values, List.filterMap_cons, h]
      simpa [confidentiality_values] using ih

/-- has_confidentiality_tag fails exactly when the tagset carries no
Confidentiality value. -/
theorem has_conf_false_iff (tags : List Tag) :
    has_confidentiality_tag tags = false ↔ confidentiality_values tags = [] := by
  induction tags with
  | nil => simp [has_confidentiality_tag, confidentiality_values]
  | cons t ts ih =>
    by_cases h : t.Key = "Confidentiality" <;>
      simp [has_confidentiality_tag, confidentiality_values, List.filterMap_cons, h]

/-- get_confidentiality_risk on a tagset with exactly one Confidentiality value
returns the table image of that value, with the qualified Critical fallback for
an unrecognized value. -/
theorem get_confidentiality_risk_single (tags : List Tag) (v : String)
    (h : confidentiality_values tags = [v]) :
    get_confidentiality_risk tags = RegoResult.ok (conf_risk_of v) := by
  unfold get_confidentiality_risk
  rw [conf_outs_eq, h]
  cases hm : confidentiality_map (str_lower v) <;>
    simp [List.filterMap_cons, rego_function_result, conf_risk_of, hm]

/-! ## Claim theorems -/

/-- Claim C1 (code_bug evidence): the risk aggregation function
determine_kms_risk_level is claimed to return Critical whenever a critical
violation is present, else Medium for three or more issues, else Low for one
or two, and nothing for zero.  Evaluating the translated code: on an issue set
containing a critical issue the Critical clause and the count-based clause
both fire with distinct values, which is a Rego evaluation conflict error, not
the Critical verdict; the non-critical cases do follow the claimed count
scheme. -/
theorem c1_determine_kms_risk_level_eval :
    determine_kms_risk_level ["public access enabled"] = RegoResult.conflict ∧
    determine_kms_risk_level
      ["public access enabled", "versioning disabled", "access logging disabled"] =
      RegoResult.conflict ∧
    determine_kms_risk_level ["versioning disabled"] = RegoResult.ok "Low" ∧
    determine_kms_risk_level ["versioning disabled", "access logging disabled"] =
      RegoResult.ok "Low" ∧
    determine_kms_risk_level
      ["versioning disabled", "access logging disabled", "event notifications disabled"] =
      RegoResult.ok "Medium" ∧
    determine_kms_risk_level [] = RegoResult.undef :=
  ⟨rfl, rfl, rfl, rfl, rfl, rfl⟩

/-- Claim C4 (code_bug evidence): rules are claimed to be total, with internal
faults contained per rule.  Evaluating the translated aws.s3_kms_audit package
on a KMS-encrypted public bucket whose only issue is public access: the issue
list is defined and non-empty, determine_kms_risk_level raises a conflict, and
the whole deny evaluation aborts with an error instead of abstaining. -/
theorem c4_rule_evaluation_conflict_eval :
    get_kms_security_issues c4_input.bucket_config = some ["public access enabled"] ∧
    s3_kms_audit_deny c4_input = RegoResult.conflict :=
  ⟨rfl, rfl⟩

/-- Claim C7: for every s3 snapshot whose public-access control is recorded
and not in the fully blocked state, the public-access deny rule produces
exactly the High violation. -/
theorem c7_public_access_high (inp : S3Input)
    (hty : inp.resource_type = "s3")
    (hpub : is_publicly_accessible inp.bucket_config = true) :
    s3_creation_deny inp = [public_access_violation] := by
  simp [s3_creation_deny, hty, hpub]

/-- Witness for C7 at a concrete snapshot with status not_blocked. -/
theorem c7_public_access_high_witness :
    is_publicly_accessible c7_witness_input.bucket_config = true ∧
    s3_creation_deny c7_witness_input = [public_access_violation] :=
  ⟨rfl, c7_public_access_high c7_witness_input rfl rfl⟩

/-- Claim C9: the deny rule of the public-access document does not read the
tagset, so any two snapshots differing only in their tags, in particular by a
Classification Private tag, receive the same violation set, and the High
public-access violation is not suppressed by that tag. -/
theorem c9_classification_tag_independence (inp : S3Input) (ts1 ts2 : List Tag) :
    s3_creation_deny { inp with bucket_config := { inp.bucket_config with tagset := ts1 } } =
      s3_creation_deny { inp with bucket_config := { inp.bucket_config with tagset := ts2 } } ∧
    (inp.resource_type = "s3" → is_publicly_accessible inp.bucket_config = true →
      s3_creation_deny { inp with bucket_config := { inp.bucket_config with tagset :=
          { Key := "Classification", Value := "Private" } :: inp.bucket_config.tagset } } =
        [public_access_violation]) := by
  constructor
  · rfl
  · intro h1 h2
    simp [s3_creation_deny, is_publicly_accessible] at h2 ⊢
    simp [h1, h2]

/-- Witness for C9 at a concrete public snapshot. -/
theorem c9_classification_tag_independence_witness :
    s3_creation_deny { c9_witness_input with bucket_config :=
        { c9_witness_input.bucket_config with tagset :=
            [{ Key := "Classification", Value := "Private" }] } } =
      [public_access_violation] :=
  (c9_classification_tag_independence c9_witness_input [] []).2 rfl rfl

/-- Claim C5 counterexample: a snapshot carrying no public-access-block
information at all (and no ownership information) is claimed to still be
flagged as publicly accessible; instead both public-access predicates fail on
the absent fields and every rule treats the snapshot as compliant. -/
theorem c5_missing_fields_counterexample :
    c5_cx_input.bucket_config.public_access_block = none ∧
    is_publicly_accessible c5_cx_input.bucket_config = false ∧
    is_bucket_publicly_accessible c5_cx_input.bucket_config = false ∧
    s3_creation_deny c5_cx_input = [] ∧
    s3_kms_audit_deny c5_cx_input = RegoResult.ok [] :=
  ⟨rfl, rfl, rfl, rfl, rfl⟩

/-- Claim C5 as amended: a snapshot with the public-access-block object absent
(and no ownership object) is not flagged as publicly accessible by the
public-access rules: both public-access predicates fail on the missing field,
so the public-access deny rule yields no violation — the missing field is
evaluated as if fully blocked, not as the claimed least-secure value.  This is
scoped to the public-access rule family: rule families that do not consult the
field, such as the confidentiality document, can still flag the snapshot. -/
theorem c5_missing_fields_compliant (cfg : BucketConfig)
    (h1 : cfg.public_access_block = none) (h2 : cfg.ownership = none) :
    is_publicly_accessible cfg = false ∧
    s3_creation_deny { resource_type := "s3", bucket_config := cfg } = [] ∧
    is_bucket_publicly_accessible cfg = false := by
  refine ⟨?_, ?_, ?_⟩ <;>
    simp [is_publicly_accessible, s3_creation_deny, is_bucket_publicly_accessible, h1, h2]

/-- Witness for the amended C5 at the all-absent snapshot. -/
theorem c5_missing_fields_compliant_witness :
    c5_cx_input.bucket_config.public_access_block = none ∧
    c5_cx_input.bucket_config.ownership = none ∧
    is_publicly_accessible c5_cx_input.bucket_config = false :=
  ⟨rfl, rfl, (c5_missing_fields_compliant c5_cx_input.bucket_config rfl rfl).1⟩

/-- Claim C2 counterexample: a snapshot whose public access is not fully
blocked (status not_blocked) but which is bucket-owner-enforced and carries
Confidentiality high.  The claim demands the Critical classification from the
mapping table; instead the confidentiality document stays at its default
(false) because its trigger is ownership, not the public-access block, and no
rule of the set emits a Critical violation for this snapshot. -/
theorem c2_public_not_blocked_counterexample :
    is_publicly_accessible c2_cx_input.bucket_config = true ∧
    c2_cx_input.bucket_config.tagset = [{ Key := "Confidentiality", Value := "high" }] ∧
    s3_creation_conf_deny c2_cx_input = RegoResult.ok none ∧
    s3_creation_deny c2_cx_input = [public_access_violation] ∧
    s3_kms_audit_deny c2_cx_input = RegoResult.ok [] :=
  ⟨rfl, rfl, rfl, rfl, rfl⟩

/-- Claim C2 as amended: for every s3 snapshot that is not
bucket-owner-enforced (the actual trigger of the confidentiality document),
the deny rule classifies severity from the Confidentiality tag value through
the fixed table (high to Critical, medium to Medium, low to Low,
informational to Informational, public to Public), and a snapshot with no
Confidentiality tag receives the qualified Critical unknown-risk default,
never a lower severity. -/
theorem c2_confidentiality_mapping (inp : S3Input) (v : String)
    (hty : inp.resource_type = "s3")
    (hown : is_bucket_owner_enforced inp.bucket_config = false) :
    (confidentiality_values inp.bucket_config.tagset = [] →
      s3_creation_conf_deny inp = RegoResult.ok (some no_confidentiality_tag_violation)) ∧
    (confidentiality_values inp.bucket_config.tagset = [v] →
      s3_creation_conf_deny inp = RegoResult.ok (some
        { risk_level := conf_risk_of v
          reason := "S3 bucket is public and confidentiality tag includes: " ++
            conf_risk_of v })) ∧
    conf_risk_of "High" = "Critical" ∧ conf_risk_of "Medium" = "Medium" ∧
    conf_risk_of "Low" = "Low" ∧ conf_risk_of "Informational" = "Informational" ∧
    conf_risk_of "Public" = "Public" := by
  refine ⟨?_, ?_, rfl, rfl, rfl, rfl, rfl⟩
  · intro h
    have hno : has_confidentiality_tag inp.bucket_config.tagset = false :=
      (has_conf_false_iff _).mpr h
    simp [s3_creation_conf_deny, hty, hown, hno]
  · intro h
    have htag : has_confidentiality_tag inp.bucket_config.tagset = true := by
      cases hb : has_confidentiality_tag inp.bucket_config.tagset
      · rw [(has_conf_false_iff _).mp hb] at h
        exact absurd h (by simp)
      · rfl
    have hr := get_confidentiality_risk_single inp.bucket_config.tagset v h
    simp [s3_creation_conf_deny, hty, hown, htag, hr]

/-- Witness for the amended C2: a snapshot not bucket-owner-enforced with one
Confidentiality High tag classifies as Critical. -/
theorem c2_confidentiality_mapping_witness :
    confidentiality_values c2_witness_input.bucket_config.tagset = ["High"] ∧
    s3_creation_conf_deny c2_witness_input = RegoResult.ok (some
      { risk_level := conf_risk_of "High"
        reason := "S3 bucket is public and confidentiality tag includes: " ++
          conf_risk_of "High" }) :=
  ⟨rfl, (c2_confidentiality_mapping c2_witness_input "High" rfl rfl).2.1 rfl⟩

/-- Claim C10 counterexample: a snapshot, not bucket-owner-enforced, carrying
a Confidentiality tag with the unrecognized value weird; the claim demands the
qualified Critical fallback, but a second Confidentiality tag with value low
makes the existential tag lookup succeed and the rule classifies Low, a lower
severity. -/
theorem c10_unrecognized_tag_counterexample :
    is_bucket_owner_enforced c10_cx_input.bucket_config = false ∧
    c10_cx_input.bucket_config.tagset.any (fun t =>
        t.Key == "Confidentiality" && (confidentiality_map (str_lower t.Value)).isNone) = true ∧
    s3_creation_conf_deny c10_cx_input = RegoResult.ok (some
      { risk_level := "Low"
        reason := "S3 bucket is public and confidentiality tag includes: Low" }) :=
  ⟨rfl, rfl, rfl⟩

/-- Claim C10 as amended: for every s3 snapshot, not bucket-owner-enforced,
that carries a Confidentiality tag and all of whose Confidentiality tags have
unrecognized lowercased values, the rule yields the qualified Critical
fallback, the same safety default as a missing tag. -/
theorem c10_unrecognized_tag_critical (inp : S3Input)
    (hty : inp.resource_type = "s3")
    (hown : is_bucket_owner_enforced inp.bucket_config = false)
    (htag : has_confidentiality_tag inp.bucket_config.tagset = true)
    (hun : ∀ t ∈ inp.bucket_config.tagset, t.Key = "Confidentiality" →
        confidentiality_map (str_lower t.Value) = none) :
    s3_creation_conf_deny inp = RegoResult.ok (some
      { risk_level := unrecognized_confidentiality_risk
        reason := "S3 bucket is public and confidentiality tag includes: " ++
          unrecognized_confidentiality_risk }) := by
  have houts : inp.bucket_config.tagset.filterMap (fun t =>
      if t.Key == "Confidentiality" then confidentiality_map (str_lower t.Value) else none) = [] := by
    rw [List.filterMap_eq_nil_iff]
    intro t ht
    by_cases h : t.Key = "Confidentiality"
    · simp [h, hun t ht h]
    · simp [h]
  have hr : get_confidentiality_risk inp.bucket_config.tagset =
      RegoResult.ok unrecognized_confidentiality_risk := by
    unfold get_confidentiality_risk
    rw [houts]
    rfl
  simp [s3_creation_conf_deny, hty, hown, htag, hr]

/-- Witness for the amended C10: a single unrecognized Confidentiality value
classifies as the qualified Critical fallback. -/
theorem c10_unrecognized_tag_critical_witness :
    has_confidentiality_tag c10_witness_input.bucket_config.tagset = true ∧
    s3_creation_conf_deny c10_witness_input = RegoResult.ok (some
      { risk_level := unrecognized_confidentiality_risk
        reason := "S3 bucket is public and confidentiality tag includes: " ++
          unrecognized_confidentiality_risk }) :=
  ⟨rfl, c10_unrecognized_tag_critical c10_witness_input rfl rfl rfl (by decide)⟩

/-- Claim C8 counterexample: the claim says a qualified severity compares
equal to the plain severity and the qualifier lives only in the reason text.
The dashboard classifier maps the qualified Critical string to the default
class while plain Critical maps to the error class, and the confidentiality
rule stores the qualifier inside the risk_level field itself. -/
theorem c8_qualified_severity_counterexample :
    getSeverityColor (some "Critical (Unknown – No Confidentiality tag found)") = "default" ∧
    getSeverityColor (some "Critical") = "error" ∧
    s3_creation_conf_deny c8_cx_input = RegoResult.ok (some no_confidentiality_tag_violation) ∧
    no_confidentiality_tag_violation.risk_level =
      "Critical (Unknown – No Confidentiality tag found)" :=
  ⟨rfl, rfl, rfl, rfl⟩

/-- Claim C8 as amended: the severity comparison of the dashboard is an exact
match on the uppercased string; every severity value outside the four plain
levels, in particular any qualified severity, is classed into the default
bucket, distinct from the class of the corresponding plain severity. -/
theorem c8_qualified_severity_default (s : String)
    (h1 : str_upper s ≠ "CRITICAL") (h2 : str_upper s ≠ "HIGH")
    (h3 : str_upper s ≠ "MEDIUM") (h4 : str_upper s ≠ "LOW") :
    getSeverityColor (some s) = "default" ∧ getSeverityColor (some "Critical") = "error" := by
  refine ⟨?_, rfl⟩
  simp [getSeverityColor, h1, h2, h3, h4]

/-- Witness for the amended C8 at the qualified fallback severity string. -/
theorem c8_qualified_severity_default_witness :
    getSeverityColor (some "Critical (Unknown – Unrecognized Confidentiality score)") =
        "default" ∧
    getSeverityColor (some "Critical") = "error" :=
  c8_qualified_severity_default "Critical (Unknown – Unrecognized Confidentiality score)"
    (by decide) (by decide) (by decide) (by decide)

/-- Claim C3 (spec-modelled correlator): whenever the dependent KMS evaluation
yields a non-none severity, the primary severity is raised to at least the
dependent severity, the dependent reason is appended as a violation entry with
rule_name linked-resource-insecure, a CorrelationLink pointing primary to
dependent is emitted, and the dependent resource evaluated as its own
top-level resource produces its own independent finding. -/
theorem c3_correlation_propagation (primary dep : Evaluation)
    (pid did fidD : String) (now : Nat) (s : Severity)
    (hdep : dep.severity = some s) :
    (∃ p, (correlate primary pid did (some dep)).1.severity = some p ∧ s.rank ≤ p.rank) ∧
    (correlate primary pid did (some dep)).1.violations =
      primary.violations ++
        [{ rule_name := "linked-resource-insecure", risk_level := s
           reason := String.intercalate "; " (dep.violations.map (fun v => v.reason)) }] ∧
    (correlate primary pid did (some dep)).2 =
      some { from_finding_id := pid, to_finding_id := did
             relation := "depends_on_encryption_key" } ∧
    (finding_of_eval did fidD now dep).isSome = true := by
  have hmax : ∀ a : Severity, s.rank ≤ (maxSeverity a s).rank := by
    intro a
    unfold maxSeverity
    by_cases h : a.rank < s.rank
    · simp [h]
    · simp [h]
      exact Nat.le_of_not_lt h
  refine ⟨?_, ?_, ?_, ?_⟩
  · cases hp : primary.severity with
    | none => exact ⟨s, by simp [correlate, hdep, hp], Nat.le_refl _⟩
    | some p0 => exact ⟨maxSeverity p0 s, by simp [correlate, hdep, hp], hmax p0⟩
  · simp [correlate, hdep]
  · simp [correlate, hdep]
  · simp [finding_of_eval, hdep]

/-- Witness for C3: a Critical KMS evaluation correlated into a High primary
evaluation. -/
theorem c3_correlation_propagation_witness :
    c3_dep_eval.severity = some Severity.Critical ∧
    (∃ p, (correlate c3_primary_eval "s3-finding-1" "kms-finding-1"
        (some c3_dep_eval)).1.severity = some p ∧ Severity.Critical.rank ≤ p.rank) :=
  ⟨rfl, (c3_correlation_propagation c3_primary_eval c3_dep_eval
    "s3-finding-1" "kms-finding-1" "kms-finding-1" 0 Severity.Critical rfl).1⟩

/-- Claim C6 (spec-modelled orchestrator): a Deleted change event for a
resource with an Open finding maps the finding to Resolved with resolved_at
set and the violations cleared, and does so without evaluating any rule: the
outcome is identical for every snapshot and every rule set. -/
theorem c6_deletion_resolves {α β : Type}
    (ruleEval : α → List SpecViolation) (ruleEval2 : β → List SpecViolation)
    (snap : α) (snap2 : β) (f : LifecycleFinding)
    (rid fid rid2 fid2 : String) (now : Nat)
    (_hopen : f.status = FindingStatus.Open) :
    orchestrate ChangeEvent.Deleted ruleEval snap rid fid (some f) now =
      some (resolve_finding f now) ∧
    (resolve_finding f now).status = FindingStatus.Resolved ∧
    (resolve_finding f now).resolved_at = some now ∧
    (resolve_finding f now).violations = [] ∧
    (resolve_finding f now).finding_id = f.finding_id ∧
    orchestrate ChangeEvent.Deleted ruleEval snap rid fid (some f) now =
      orchestrate ChangeEvent.Deleted ruleEval2 snap2 rid2 fid2 (some f) now :=
  ⟨rfl, rfl, rfl, rfl, rfl, rfl⟩

/-- Witness for C6: deleting the demo bucket resolves its Open finding even
though the supplied rule set would still report a violation. -/
theorem c6_deletion_resolves_witness :
    c6_finding.status = FindingStatus.Open ∧
    orchestrate ChangeEvent.Deleted
      (fun _ : Nat => [{ rule_name := "public-exposure", risk_level := Severity.High
                         reason := "S3 Bucket Public Access Enabled" }])
      0 "test-public-bucket" "finding-2" (some c6_finding) 30 =
      some (resolve_finding c6_finding 30) :=
  ⟨rfl, (c6_deletion_resolves
    (fun _ : Nat => [{ rule_name := "public-exposure", risk_level := Severity.High
                       reason := "S3 Bucket Public Access Enabled" }])
    (fun _ : Nat => []) 0 1 c6_finding
    "test-public-bucket" "finding-2" "test-public-bucket" "finding-3" 30 rfl).1⟩

end CSPM
